import Mathlib

set_option maxHeartbeats 1000000

/-!
Shallow embedding of `VIXEN/tools/aggregate_results.py`, the aggregation and
normalization engine of the VIXEN benchmark repository.

Modelling conventions:
* JSON numbers are modelled as `ℚ` (the source manipulates Python floats and
  ints; the relational and rounding behaviour under scrutiny does not depend
  on binary floating-point artefacts, which a shallow embedding cannot carry).
* A missing JSON field is an `Option.none`; `dict.get(k, default)` is
  `Option.getD`.  A missing `device` / `configuration` / `statistics`
  sub-record behaves exactly like a sub-record with every field missing
  (`.get('device', {})` followed by `.get(field, default)`), so the embedding
  flattens each sub-record to a structure of optional fields.
* A worksheet cell is `Cell` (string, number, or empty — `openpyxl` yields
  `None` for an empty cell); a worksheet is a `List` of rows of cells.
* `datetime.now().isoformat()` is nondeterministic; the embedding threads the
  current instant through as an explicit `now : String` argument.
-/

inductive Cell where
  | str : String → Cell
  | num : ℚ → Cell
  | empty : Cell
deriving DecidableEq, Repr

abbrev Row := List Cell

/-- Device sub-record of an input result (`result['device']`). -/
structure RecordDevice where
  gpu : Option String
  driver : Option String
  vram_gb : Option ℚ
deriving DecidableEq, Repr

/-- Configuration sub-record of an input result (`result['configuration']`). -/
structure RecordConfig where
  pipeline : Option String
  resolution : Option ℚ
  scene_type : Option String
  shader : Option String
  screen_width : Option ℚ
  screen_height : Option ℚ
deriving DecidableEq, Repr

/-- Statistics sub-record of an input result (`result['statistics']`). -/
structure RecordStats where
  fps_mean : Option ℚ
  frame_time_mean : Option ℚ
  frame_time_p99 : Option ℚ
  frame_time_stddev : Option ℚ
  bandwidth_mean : Option ℚ
deriving DecidableEq, Repr

/-- One element of a result's `frames` sequence. -/
structure FrameRec where
  frame_num : Option Nat
  frame_time_ms : Option ℚ
  fps : Option ℚ
  bandwidth_read_gbps : Option ℚ
  bandwidth_write_gbps : Option ℚ
  vram_mb : Option ℚ
  avg_voxels_per_ray : Option ℚ
  ray_throughput_mrays : Option ℚ
deriving DecidableEq, Repr

/-- One loaded input record (one parsed JSON result file). -/
structure BenchRecord where
  device : RecordDevice
  timestamp : Option String
  test_id : Option String
  configuration : RecordConfig
  statistics : RecordStats
  frames : List FrameRec
deriving DecidableEq, Repr

/-- Value of `config.get('pipeline', 'unknown')`. -/
def BenchRecord.pipelineD (r : BenchRecord) : String :=
  r.configuration.pipeline.getD "unknown"

/-- Value of `config.get('scene_type', 'unknown')`. -/
def BenchRecord.sceneD (r : BenchRecord) : String :=
  r.configuration.scene_type.getD "unknown"

/-- Value of `result.get('test_id', 'unknown')`. -/
def BenchRecord.testIdD (r : BenchRecord) : String :=
  r.test_id.getD "unknown"

/-- Value of `frame.get('frame_num', 0)`. -/
def frameNumD (f : FrameRec) : Nat := f.frame_num.getD 0

/-- The three recognized pipelines of `PIPELINE_SHEET_NAMES`. -/
inductive PipelineKind where
  | hardware_rt
  | compute
  | fragment
deriving DecidableEq, Repr

/-- Lookup in `PIPELINE_SHEET_NAMES` (an unrecognized pipeline string,
`"unknown"` included, maps to no sheet). -/
def pipelineTarget (p : String) : Option PipelineKind :=
  if p = "hardware_rt" then some .hardware_rt
  else if p = "compute" then some .compute
  else if p = "fragment" then some .fragment
  else none

/-- One row of the `Benchmarks` sheet. -/
structure BenchRow where
  benchmark_id : String
  machine_name : String
  gpu_name : String
  gpu_driver : String
  vram_gb : ℚ
  run_date : String
  total_tests : Nat
  notes : String
deriving DecidableEq, Repr

/-- One row of the `Summary` sheet. -/
structure SummaryRow where
  benchmark_id : String
  test_id : String
  pipeline : String
  resolution : ℚ
  scene : String
  shader : String
  screen_width : ℚ
  screen_height : ℚ
  fps_mean : ℚ
  frame_time_mean_ms : ℚ
  frame_time_p99_ms : ℚ
  frame_time_stddev : ℚ
  bandwidth_mean_gbps : ℚ
deriving DecidableEq, Repr

/-- One row of a per-pipeline frame sheet. -/
structure FrameRow where
  benchmark_id : String
  test_id : String
  frame : Nat
  frame_time_ms : ℚ
  fps : ℚ
  bandwidth_read_gbps : ℚ
  bandwidth_write_gbps : ℚ
  vram_mb : ℚ
  avg_voxels_per_ray : ℚ
  ray_throughput_mrays : ℚ
deriving DecidableEq, Repr

/-- The `timestamp` values that pass Python truthiness
(`[r.get('timestamp', '') for r in results if r.get('timestamp')]`). -/
def presentTimestamps (results : List BenchRecord) : List String :=
  results.filterMap fun r =>
    match r.timestamp with
    | some t => if t ≠ "" then some t else none
    | none => none

/-- Python `min` of two strings: keeps the first argument on ties. -/
def minStr (a b : String) : String := if b < a then b else a

/-- Embedding of `extract_benchmark_metadata`: one `BenchRow` for a non-empty
record sequence (device metadata from the first record, run date the minimum
present timestamp falling back to `now`, `total_tests` the full record count),
nothing for an empty sequence. -/
def extract_benchmark_metadata (results : List BenchRecord)
    (benchmark_id machine_name now : String) : List BenchRow :=
  match results with
  | [] => []
  | r0 :: _ =>
    let run_date :=
      match presentTimestamps results with
      | [] => now
      | t :: ts => ts.foldl minStr t
    [{ benchmark_id := benchmark_id
       machine_name := machine_name
       gpu_name := r0.device.gpu.getD "unknown"
       gpu_driver := r0.device.driver.getD "unknown"
       vram_gb := r0.device.vram_gb.getD 0
       run_date := run_date
       total_tests := results.length
       notes := "" }]

/-- The `Summary` row built from one record in `extract_summary_data`. -/
def summaryRowOf (r : BenchRecord) (benchmark_id : String) : SummaryRow :=
  { benchmark_id := benchmark_id
    test_id := r.testIdD
    pipeline := r.pipelineD
    resolution := r.configuration.resolution.getD 0
    scene := r.sceneD
    shader := r.configuration.shader.getD "unknown"
    screen_width := r.configuration.screen_width.getD 0
    screen_height := r.configuration.screen_height.getD 0
    fps_mean := r.statistics.fps_mean.getD 0
    frame_time_mean_ms := r.statistics.frame_time_mean.getD 0
    frame_time_p99_ms := r.statistics.frame_time_p99.getD 0
    frame_time_stddev := r.statistics.frame_time_stddev.getD 0
    bandwidth_mean_gbps := r.statistics.bandwidth_mean.getD 0 }

/-- The skip test of `extract_summary_data`: a record is kept unless its
pipeline or scene resolves to `"unknown"`. -/
def keepSummary (r : BenchRecord) : Bool :=
  !(r.pipelineD == "unknown" || r.sceneD == "unknown")

/-- Strict lexicographic order on the `sort_values(['pipeline', 'resolution',
'scene'])` key of a summary row. -/
def summaryKeyLt (a b : SummaryRow) : Bool :=
  if a.pipeline = b.pipeline then
    if a.resolution = b.resolution then decide (a.scene < b.scene)
    else decide (a.resolution < b.resolution)
  else decide (a.pipeline < b.pipeline)

/-- Stable insertion step for `sortBy`. -/
def insertSorted (le : α → α → Bool) (x : α) : List α → List α
  | [] => [x]
  | y :: ys => if le x y then x :: y :: ys else y :: insertSorted le x ys

/-- Stable insertion sort (models the stable multi-key `sort_values`). -/
def sortBy (le : α → α → Bool) : List α → List α
  | [] => []
  | x :: xs => insertSorted le x (sortBy le xs)

/-- Embedding of `extract_summary_data`: one row per record with a known
pipeline and scene, sorted by (pipeline, resolution, scene). -/
def extract_summary_data (results : List BenchRecord) (benchmark_id : String) :
    List SummaryRow :=
  sortBy (fun a b => !summaryKeyLt b a)
    ((results.filter keepSummary).map (summaryRowOf · benchmark_id))

/-- The frame row built from one frame in `extract_frame_data_by_pipeline`. -/
def frameRowOf (benchmark_id test_id : String) (f : FrameRec) : FrameRow :=
  { benchmark_id := benchmark_id
    test_id := test_id
    frame := frameNumD f
    frame_time_ms := f.frame_time_ms.getD 0
    fps := f.fps.getD 0
    bandwidth_read_gbps := f.bandwidth_read_gbps.getD 0
    bandwidth_write_gbps := f.bandwidth_write_gbps.getD 0
    vram_mb := f.vram_mb.getD 0
    avg_voxels_per_ray := f.avg_voxels_per_ray.getD 0
    ray_throughput_mrays := f.ray_throughput_mrays.getD 0 }

/-- The frame rows a single record contributes to the sheet of pipeline `k`:
nothing unless the record's pipeline maps to `k`; otherwise one row per frame
except those whose `frame_num` equals `len(frames) // 2`. -/
def frameContrib (r : BenchRecord) (benchmark_id : String) (k : PipelineKind) :
    List FrameRow :=
  if pipelineTarget r.pipelineD = some k then
    let capture := r.frames.length / 2
    (r.frames.filter fun f => !(frameNumD f == capture)).map
      (frameRowOf benchmark_id r.testIdD)
  else []

/-- All rows of the sheet of pipeline `k`, in record order. -/
def sheetRowsFor (results : List BenchRecord) (benchmark_id : String)
    (k : PipelineKind) : List FrameRow :=
  results.foldr (fun r acc => frameContrib r benchmark_id k ++ acc) []

/-- The three per-pipeline frame row lists (`pipeline_frames` of the source). -/
structure FrameDFs where
  hardware_rt : List FrameRow
  compute : List FrameRow
  fragment : List FrameRow
deriving DecidableEq, Repr

/-- Embedding of `extract_frame_data_by_pipeline`. -/
def extract_frame_data_by_pipeline (results : List BenchRecord)
    (benchmark_id : String) : FrameDFs :=
  { hardware_rt := sheetRowsFor results benchmark_id .hardware_rt
    compute := sheetRowsFor results benchmark_id .compute
    fragment := sheetRowsFor results benchmark_id .fragment }

/-- Select the rows of one pipeline's sheet. -/
def FrameDFs.sheet (d : FrameDFs) : PipelineKind → List FrameRow
  | .hardware_rt => d.hardware_rt
  | .compute => d.compute
  | .fragment => d.fragment

/-- Cells of a `Benchmarks` row in sheet column order. -/
def BenchRow.cells (b : BenchRow) : Row :=
  [.str b.benchmark_id, .str b.machine_name, .str b.gpu_name, .str b.gpu_driver,
   .num b.vram_gb, .str b.run_date, .num b.total_tests, .str b.notes]

/-- Cells of a `Summary` row in sheet column order. -/
def SummaryRow.cells (s : SummaryRow) : Row :=
  [.str s.benchmark_id, .str s.test_id, .str s.pipeline, .num s.resolution,
   .str s.scene, .str s.shader, .num s.screen_width, .num s.screen_height,
   .num s.fps_mean, .num s.frame_time_mean_ms, .num s.frame_time_p99_ms,
   .num s.frame_time_stddev, .num s.bandwidth_mean_gbps]

/-- Cells of a per-pipeline frame row in sheet column order. -/
def FrameRow.cells (f : FrameRow) : Row :=
  [.str f.benchmark_id, .str f.test_id, .num f.frame, .num f.frame_time_ms,
   .num f.fps, .num f.bandwidth_read_gbps, .num f.bandwidth_write_gbps,
   .num f.vram_mb, .num f.avg_voxels_per_ray, .num f.ray_throughput_mrays]

/-- Documented header of the `Benchmarks` sheet. -/
def benchHeaders : List String :=
  ["benchmark_id", "machine_name", "gpu_name", "gpu_driver", "vram_gb",
   "run_date", "total_tests", "notes"]

/-- Documented header of the `Summary` sheet. -/
def summaryHeaders : List String :=
  ["benchmark_id", "test_id", "pipeline", "resolution", "scene", "shader",
   "screen_width", "screen_height", "fps_mean", "frame_time_mean_ms",
   "frame_time_p99_ms", "frame_time_stddev", "bandwidth_mean_gbps"]

/-- Documented header of the three per-pipeline frame sheets. -/
def frameHeaders : List String :=
  ["benchmark_id", "test_id", "frame", "frame_time_ms", "fps",
   "bandwidth_read_gbps", "bandwidth_write_gbps", "vram_mb",
   "avg_voxels_per_ray", "ray_throughput_mrays"]

/-- Documented header of the `Cross_Machine` sheet (index columns of the
groupby followed by the renamed aggregate columns). -/
def crossHeaders : List String :=
  ["gpu_name", "pipeline", "avg_fps", "min_fps", "max_fps",
   "avg_frame_time_ms", "test_count"]

/-- The persistent store: the six named relations of the workbook schema.
Each is `none` when the sheet is absent, `some rows` when present (the source
only ever creates and reads these six sheet names). -/
structure Workbook where
  benchmarks : Option (List Row)
  summary : Option (List Row)
  hwrtFrames : Option (List Row)
  computeFrames : Option (List Row)
  fragmentFrames : Option (List Row)
  crossMachine : Option (List Row)
deriving DecidableEq, Repr

/-- A freshly created workbook with its default sheet removed. -/
def emptyWorkbook : Workbook := ⟨none, none, none, none, none, none⟩

/-- Header row written by `dataframe_to_rows(df, index=False, header=True)`. -/
def headerRow (hs : List String) : Row := hs.map Cell.str

/-- Sheet produced when a relation is created from a dataframe with header:
an empty dataframe has no columns, so nothing is written and the sheet stays
empty; otherwise the header row precedes the data rows. -/
def toSheet (hs : List String) (rows : List Row) : List Row :=
  match rows with
  | [] => []
  | _ => headerRow hs :: rows

/-- Embedding of `append_to_sheet` (always called with
`include_header=False`): an empty dataframe appends nothing; otherwise rows
are written starting at `ws.max_row + 1`.  `openpyxl` reports `max_row = 1`
for a sheet with no cells, so appending to an empty sheet leaves one blank
row before the new rows. -/
def append_to_sheet (s : List Row) (rows : List Row) : List Row :=
  match rows with
  | [] => s
  | _ =>
    match s with
    | [] => [] :: rows
    | _ => s ++ rows

/-- Create-or-append for the `Benchmarks` and `Summary` sheets. -/
def upsertSheet (s : Option (List Row)) (hs : List String) (rows : List Row) :
    List Row :=
  match s with
  | none => toSheet hs rows
  | some t => append_to_sheet t rows

/-- Create-or-append for a per-pipeline frame sheet: an empty frame dataframe
is skipped outright (`if frame_df.empty: continue`), leaving an absent sheet
absent. -/
def upsertFrameSheet (s : Option (List Row)) (rows : List Row) :
    Option (List Row) :=
  match rows with
  | [] => s
  | _ => some (upsertSheet s frameHeaders rows)

/-- Cell rows of the `Benchmarks` dataframe for one merge. -/
def benchCells (results : List BenchRecord) (benchmark_id machine_name now : String) :
    List Row :=
  (extract_benchmark_metadata results benchmark_id machine_name now).map BenchRow.cells

/-- Cell rows of the `Summary` dataframe for one merge. -/
def summaryCells (results : List BenchRecord) (benchmark_id : String) : List Row :=
  (extract_summary_data results benchmark_id).map SummaryRow.cells

/-- Cell rows of one per-pipeline frame dataframe for one merge. -/
def frameCells (results : List BenchRecord) (benchmark_id : String)
    (k : PipelineKind) : List Row :=
  ((extract_frame_data_by_pipeline results benchmark_id).sheet k).map FrameRow.cells

/-- Index of a named column among a sheet's header cells
(pandas resolves columns by name once the sheet values are framed). -/
def colIdx (headers : Row) (name : String) : Option Nat :=
  headers.findIdx? (· == Cell.str name)

/-- Cell of a sheet row at a column index (`openpyxl` pads short rows with
`None`). -/
def getCell (row : Row) (i : Nat) : Cell := row.getD i Cell.empty

/-- Numeric value of a cell, when it has one (a `None`/NaN or string cell is
skipped by the pandas numeric aggregations). -/
def cellNumVal : Cell → Option ℚ
  | .num q => some q
  | _ => none

/-- Mean with NaN-skipping: the mean of the numeric values present.  pandas
yields NaN for an all-missing column; merged stores never reach that case and
the embedding returns 0 there. -/
def qmean (l : List ℚ) : ℚ :=
  match l with
  | [] => 0
  | _ => l.sum / l.length

/-- Minimum of the numeric values present (0 when none are, see `qmean`). -/
def qmin (l : List ℚ) : ℚ :=
  match l with
  | [] => 0
  | x :: xs => xs.foldl min x

/-- Maximum of the numeric values present (0 when none are, see `qmean`). -/
def qmax (l : List ℚ) : ℚ :=
  match l with
  | [] => 0
  | x :: xs => xs.foldl max x

/-- Round-half-to-even at integer precision (the rounding of numpy, which
backs pandas `DataFrame.round`). -/
def roundHalfEven (q : ℚ) : ℤ :=
  let f := ⌊q⌋
  let r := q - f
  if r < 1 / 2 then f
  else if 1 / 2 < r then f + 1
  else if f % 2 = 0 then f else f + 1

/-- Embedding of `DataFrame.round(2)` on one value. -/
def round2 (q : ℚ) : ℚ := (roundHalfEven (q * 100) : ℚ) / 100

/-- One row of the derived `Cross_Machine` relation. -/
structure CrossRow where
  gpu_name : Cell
  pipeline : Cell
  avg_fps : ℚ
  min_fps : ℚ
  max_fps : ℚ
  avg_frame_time_ms : ℚ
  test_count : ℚ
deriving DecidableEq, Repr

/-- Cells of a `Cross_Machine` row in sheet column order. -/
def CrossRow.cells (c : CrossRow) : Row :=
  [c.gpu_name, c.pipeline, .num c.avg_fps, .num c.min_fps, .num c.max_fps,
   .num c.avg_frame_time_ms, .num c.test_count]

/-- Everything `extract_cross_machine_data` needs once its guards have
passed: the data rows of both sheets and the resolved column indices
(`benchmark_id` in `Summary`; `benchmark_id`, `machine_name`, `gpu_name` in
`Benchmarks`; `pipeline`, `fps_mean`, `frame_time_mean_ms`, `test_id` in the
merged frame). -/
structure CrossCtx where
  srows : List Row
  brows : List Row
  sBid : Nat
  bBid : Nat
  bGpu : Nat
  pIdx : Nat
  fpsIdx : Nat
  ftIdx : Nat
  tIdx : Nat
deriving DecidableEq, Repr

/-- The guard cascade of `extract_cross_machine_data`: absent sheet, fewer
than two rows, or a missing `benchmark_id`/`fps_mean`/`pipeline` column each
yield no derived rows.  Where the source would raise a `KeyError` instead (a
`Benchmarks` sheet without the three joined columns, or a `Summary` sheet
without the aggregated columns), the embedding also yields no rows; the
theorems below reach that branch only through well-formed stores. -/
def crossCtx (benchSheet summarySheet : Option (List Row)) : Option CrossCtx :=
  match summarySheet with
  | none => none
  | some sdata =>
    match sdata with
    | [] => none
    | sheaders :: srows =>
      if srows.isEmpty then none
      else
        match colIdx sheaders "benchmark_id" with
        | none => none
        | some sBid =>
          match benchSheet with
          | none => none
          | some bdata =>
            match bdata with
            | [] => none
            | bheaders :: brows =>
              if brows.isEmpty then none
              else
                match colIdx bheaders "benchmark_id",
                      colIdx bheaders "machine_name",
                      colIdx bheaders "gpu_name" with
                | some bBid, some _, some bGpu =>
                  match colIdx sheaders "fps_mean",
                        colIdx sheaders "pipeline" with
                  | some fpsIdx, some pIdx =>
                    match colIdx sheaders "frame_time_mean_ms",
                          colIdx sheaders "test_id" with
                    | some ftIdx, some tIdx =>
                      some ⟨srows, brows, sBid, bBid, bGpu, pIdx,
                            fpsIdx, ftIdx, tIdx⟩
                    | _, _ => none
                  | _, _ => none
                | _, _, _ => none

/-- Left join of the summary rows with the benchmark rows on `benchmark_id`
(`summary_df.merge(bench_df[...], on='benchmark_id', how='left')`): every
matching benchmark row duplicates the summary row; an unmatched summary row
survives with missing (NaN) benchmark columns. -/
def crossJoined (ctx : CrossCtx) : List (Row × Option Row) :=
  ctx.srows.foldr
    (fun s acc =>
      (match ctx.brows.filter (fun b => getCell b ctx.bBid == getCell s ctx.sBid) with
       | [] => [(s, none)]
       | b :: bs => (b :: bs).map fun b2 => (s, some b2)) ++ acc)
    []

/-- Grouping key `(gpu_name, pipeline)` of one joined row. -/
def crossKey (ctx : CrossCtx) (sb : Row × Option Row) : Cell × Cell :=
  (match sb.2 with
   | some b => getCell b ctx.bGpu
   | none => Cell.empty,
   getCell sb.1 ctx.pIdx)

/-- A joined row enters a group only when neither key is missing
(`groupby` drops NaN keys). -/
def crossKeyOk (ctx : CrossCtx) (sb : Row × Option Row) : Bool :=
  !((crossKey ctx sb).1 == Cell.empty) && !((crossKey ctx sb).2 == Cell.empty)

/-- Order in which pandas emits the groups: ascending group key (`groupby`
sorts keys by default).  Mixed-type keys never arise from merged stores; the
embedding ranks them empty < number < string. -/
def cellLt (a b : Cell) : Bool :=
  match a, b with
  | .num x, .num y => decide (x < y)
  | .str x, .str y => decide (x < y)
  | .empty, .empty => false
  | .empty, _ => true
  | _, .empty => false
  | .num _, .str _ => true
  | .str _, .num _ => false

/-- Strict lexicographic order on group keys. -/
def keyLt (a b : Cell × Cell) : Bool :=
  if a.1 = b.1 then cellLt a.2 b.2 else cellLt a.1 b.1

/-- The aggregate row of one `(gpu_name, pipeline)` group: mean/min/max of
`fps_mean`, mean of `frame_time_mean_ms`, count of non-missing `test_id`,
every aggregate column passed through `round(2)`. -/
def crossAggRow (ctx : CrossCtx) (valid : List (Row × Option Row))
    (k : Cell × Cell) : CrossRow :=
  let grp := valid.filter fun sb => crossKey ctx sb == k
  let fpsVals := grp.filterMap fun sb => cellNumVal (getCell sb.1 ctx.fpsIdx)
  let ftVals := grp.filterMap fun sb => cellNumVal (getCell sb.1 ctx.ftIdx)
  { gpu_name := k.1
    pipeline := k.2
    avg_fps := round2 (qmean fpsVals)
    min_fps := round2 (qmin fpsVals)
    max_fps := round2 (qmax fpsVals)
    avg_frame_time_ms := round2 (qmean ftVals)
    test_count := round2 ((grp.countP fun sb =>
      !(getCell sb.1 ctx.tIdx == Cell.empty) : ℚ)) }

/-- The derived rows once the guards have passed: one aggregate row per
distinct group key, keys in ascending order. -/
def crossRowsOf (ctx : CrossCtx) : List CrossRow :=
  let valid := (crossJoined ctx).filter (crossKeyOk ctx)
  let keys := sortBy (fun a b => !keyLt b a) ((valid.map (crossKey ctx)).eraseDups)
  keys.map (crossAggRow ctx valid)

/-- Embedding of `extract_cross_machine_data`: reads only the `Benchmarks`
and `Summary` sheets of the workbook. -/
def extractCrossAux (benchSheet summarySheet : Option (List Row)) :
    List CrossRow :=
  match crossCtx benchSheet summarySheet with
  | none => []
  | some ctx => crossRowsOf ctx

/-- Embedding of `extract_cross_machine_data` at workbook level. -/
def extract_cross_machine_data (wb : Workbook) : List CrossRow :=
  extractCrossAux wb.benchmarks wb.summary

/-- The base-relation half of `create_or_update_workbook`: open or create
the store, extract the three dataframes, create-or-append each base sheet,
and delete the `Cross_Machine` sheet. -/
def mergeBase (store : Option Workbook) (results : List BenchRecord)
    (benchmark_id machine_name now : String) : Workbook :=
  let wb := store.getD emptyWorkbook
  { benchmarks := some (upsertSheet wb.benchmarks benchHeaders
      (benchCells results benchmark_id machine_name now))
    summary := some (upsertSheet wb.summary summaryHeaders
      (summaryCells results benchmark_id))
    hwrtFrames := upsertFrameSheet wb.hwrtFrames
      (frameCells results benchmark_id .hardware_rt)
    computeFrames := upsertFrameSheet wb.computeFrames
      (frameCells results benchmark_id .compute)
    fragmentFrames := upsertFrameSheet wb.fragmentFrames
      (frameCells results benchmark_id .fragment)
    crossMachine := none }

/-- The derived-relation half of `create_or_update_workbook`: regenerate
`Cross_Machine` from the merged base sheets, writing it only when the
derivation produced rows. -/
def crossStep (w : Workbook) : Workbook :=
  match extract_cross_machine_data w with
  | [] => w
  | rows => { w with crossMachine := some (toSheet crossHeaders (rows.map CrossRow.cells)) }

/-- Embedding of `create_or_update_workbook`: `store` is the workbook at the
output path when the file exists, `none` otherwise; the result is the
workbook saved back. -/
def create_or_update_workbook (store : Option Workbook)
    (results : List BenchRecord) (benchmark_id machine_name now : String) :
    Workbook :=
  crossStep (mergeBase store results benchmark_id machine_name now)

/-- A run folder seen by `cleanup_transient_files`: the names of its direct
child files and its direct subdirectories (each subdirectory opaque, carrying
the names of whatever it contains). -/
structure RunFolder where
  files : List String
  subdirs : List (String × List String)
deriving DecidableEq, Repr

/-- Does a direct child name match the glob `*.json`?  (`pathlib` globbing
does not special-case leading dots, so the pattern is a plain suffix test.) -/
def matchesJsonGlob (name : String) : Bool := name.endsWith ".json"

/-- Embedding of `cleanup_transient_files`.  Deletion can fail per item
(`except IOError`); `canDeleteFile` and `canDeleteDebug` model which
deletions succeed.  Returns the surviving folder and the warned-about item
names.  Every `*.json` deletion is attempted independently, and the
`debug_images` removal is attempted regardless of earlier failures. -/
def cleanup_transient_files (d : RunFolder) (canDeleteFile : String → Bool)
    (canDeleteDebug : Bool) : RunFolder × List String :=
  let survivors := d.files.filter fun n => !(matchesJsonGlob n && canDeleteFile n)
  let warnFiles := d.files.filter fun n => matchesJsonGlob n && !canDeleteFile n
  let hasDebug := d.subdirs.any fun s => s.1 == "debug_images"
  let subdirs2 :=
    if hasDebug && canDeleteDebug then
      d.subdirs.filter fun s => !(s.1 == "debug_images")
    else d.subdirs
  let warnDebug := if hasDebug && !canDeleteDebug then ["debug_images"] else []
  (⟨survivors, subdirs2⟩, warnFiles ++ warnDebug)

/-- Failure raised by the archiver when a source path is absent. -/
inductive ArchiveError where
  | notFound
deriving DecidableEq, Repr

/-- One archive entry: path components relative to the archive root, plus
opaque byte content. -/
structure ZipEntry where
  arcname : List String
  content : List Nat
deriving DecidableEq, Repr

/-- Embedding of `pack_benchmark`: `src` is the source directory's recursive
file listing when the directory exists (`none` when it does not), each file
given by its path components relative to the directory.  Archive paths are
taken relative to the directory's parent, so every entry is rooted at the
directory's own name. -/
def pack_benchmark (dirName : String)
    (src : Option (List (List String × List Nat))) :
    Except ArchiveError (List ZipEntry) :=
  match src with
  | none => .error .notFound
  | some files => .ok (files.map fun fc => ⟨dirName :: fc.1, fc.2⟩)

/-- Embedding of `unpack_benchmark`: `zip` is the archive's entry list when
the archive file exists (`none` when it does not); `outputDir` is the target
directory path.  Returns the reported extraction directory: the first nested
root component found among the entries, or the target directory itself.
(The source draws that component from an unordered `set`; the embedding
takes the first in entry order.) -/
def unpack_benchmark (zip : Option (List ZipEntry)) (outputDir : List String) :
    Except ArchiveError (List String) :=
  match zip with
  | none => .error .notFound
  | some entries =>
    let roots := (entries.filterMap fun e =>
      if e.arcname.length ≥ 2 then e.arcname.head? else none).eraseDups
    .ok (match roots with
         | r :: _ => outputDir ++ [r]
         | [] => outputDir)

/-- Embedding of `get_machine_name`.  `env` is the `VIXEN_MACHINE_NAME`
environment variable when set; `cfgMachine` is `config['suite']['machine_name']`
when the config file exists, parses, and carries the key chain (`none`
otherwise — the source also lands there on a parse error); `hostname` is
`socket.gethostname()`.  The config value must additionally be truthy
(non-empty) to win. -/
def get_machine_name (env : Option String) (cfgMachine : Option String)
    (hostname : String) : String :=
  match env with
  | some e => e
  | none =>
    match cfgMachine with
    | some c => if c ≠ "" then c else hostname
    | none => hostname

/-- Machine-name resolution of the default single-directory path of `main`:
`args.machine_name or get_machine_name()` — Python `or`, so an empty-string
override also falls through. -/
def resolveMachineNameMain (override : Option String) (env : Option String)
    (cfgMachine : Option String) (hostname : String) : String :=
  match override with
  | some o => if o ≠ "" then o else get_machine_name env cfgMachine hostname
  | none => get_machine_name env cfgMachine hostname

/-- Machine-name resolution inside `process_all_benchmarks`: the function
calls `get_machine_name()` directly, so the command-line override never
reaches it. -/
def resolveMachineNameProcessAll (_override : Option String)
    (env : Option String) (cfgMachine : Option String) (hostname : String) :
    String :=
  get_machine_name env cfgMachine hostname

/-! Shared helper lemmas and concrete test fixtures. -/

/-- A frame record with every field absent. -/
def blankFrame : FrameRec := ⟨none, none, none, none, none, none, none, none⟩

/-- A frame record carrying only a `frame_num`. -/
def numFrame (n : Nat) : FrameRec :=
  ⟨some n, none, none, none, none, none, none, none⟩

/-- Record used to refute C1 as stated: a recognized pipeline and three
frame samples, all of which carry no `frame_num` (so each defaults to 0,
none equals the midpoint 1, and nothing is filtered). -/
def c1CexRecord : BenchRecord :=
  { device := ⟨none, none, none⟩
    timestamp := none
    test_id := none
    configuration := ⟨some "hardware_rt", none, some "cube", none, none, none⟩
    statistics := ⟨none, none, none, none, none⟩
    frames := [blankFrame, blankFrame, blankFrame] }

/-- Record with canonical frame numbering used to witness the amended C1. -/
def c1OkRecord : BenchRecord :=
  { device := ⟨some "GPU-A", some "500.1", some 8⟩
    timestamp := some "2024-01-01T00:00:00"
    test_id := some "t1"
    configuration := ⟨some "hardware_rt", some 128, some "cube", some "s",
      some 1920, some 1080⟩
    statistics := ⟨some 100, some 10, some 12, some 1, some 5⟩
    frames := [numFrame 0, numFrame 1, numFrame 2, numFrame 3] }

/-- Record used to refute C2 as stated: `scene_type` is absent (so the scene
resolves to `"unknown"`) but the pipeline is recognized, and its single
sample's `frame_num` (1) misses the capture index ⌊1/2⌋ = 0. -/
def c2CexRecord : BenchRecord :=
  { device := ⟨none, none, none⟩
    timestamp := none
    test_id := some "t-c2"
    configuration := ⟨some "hardware_rt", none, none, none, none, none⟩
    statistics := ⟨none, none, none, none, none⟩
    frames := [numFrame 1] }

/-- Record with an absent pipeline, used to witness the amended C2. -/
def c2UnknownRecord : BenchRecord :=
  { device := ⟨none, none, none⟩
    timestamp := none
    test_id := some "t-c2u"
    configuration := ⟨none, none, some "cube", none, none, none⟩
    statistics := ⟨none, none, none, none, none⟩
    frames := [numFrame 1] }

/-- A concrete existing store with nonempty base relations, used to witness
the append-only theorem. -/
def c3Store : Workbook :=
  { benchmarks := some [headerRow benchHeaders, [Cell.str "b0"]]
    summary := some [headerRow summaryHeaders, [Cell.str "b0", Cell.str "t0"]]
    hwrtFrames := some [headerRow frameHeaders]
    computeFrames := some [headerRow frameHeaders]
    fragmentFrames := some [headerRow frameHeaders]
    crossMachine := none }

/-- A compute-pipeline record used around the C4 creation behaviour. -/
def c4ComputeRecord : BenchRecord :=
  { device := ⟨some "GPU-A", some "500.1", some 8⟩
    timestamp := some "2024-01-02T00:00:00"
    test_id := some "t-c4"
    configuration := ⟨some "compute", some 64, some "cube", some "s",
      some 800, some 600⟩
    statistics := ⟨some 50, some 20, some 22, some 2, some 3⟩
    frames := [numFrame 1] }

/-- Store that lacks all three per-pipeline frame relations. -/
def c4Store : Workbook :=
  { benchmarks := some [headerRow benchHeaders, [Cell.str "b0"]]
    summary := some [headerRow summaryHeaders, [Cell.str "b0", Cell.str "t0"]]
    hwrtFrames := none
    computeFrames := none
    fragmentFrames := none
    crossMachine := none }

/-- Store holding one benchmark row and one matching summary row, used to
witness the rounding theorem on a nonempty derivation. -/
def c9Store : Workbook :=
  { benchmarks := some [headerRow benchHeaders,
      [Cell.str "b1", Cell.str "m1", Cell.str "GPU-A"]]
    summary := some [headerRow summaryHeaders, (summaryRowOf c1OkRecord "b1").cells]
    hwrtFrames := none
    computeFrames := none
    fragmentFrames := none
    crossMachine := none }

/-- A concrete run folder with two deletable JSON files (one of which fails
to delete), one unrelated file, the debug-images directory and one
unrelated subdirectory. -/
def c10Folder : RunFolder :=
  { files := ["a.json", "keep.txt", "b.json"]
    subdirs := [("debug_images", ["x.png"]), ("other", ["y.dat"])] }

/-- Deletion oracle under which only `b.json` fails to delete. -/
def c10Oracle : String → Bool := fun n => !(n == "b.json")

lemma map_filter_through (g : α → β) (p : β → Bool) (l : List α) :
    (l.filter fun x => p (g x)).map g = (l.map g).filter p := by
  induction l with
  | nil => rfl
  | cons x xs ih =>
    cases hpx : p (g x) <;>
      simp [List.filter_cons, hpx, ih]

lemma length_filter_bne_of_nodup {l : List ℕ} {a : ℕ} (hnd : l.Nodup)
    (ha : a ∈ l) :
    (l.filter fun x => !(x == a)).length = l.length - 1 := by
  induction l with
  | nil => cases ha
  | cons x xs ih =>
    have hhead : x ∉ xs := (List.nodup_cons.mp hnd).1
    rcases List.mem_cons.mp ha with hax | hmem
    · have hall : xs.filter (fun y => !(y == a)) = xs := by
        apply List.filter_eq_self.mpr
        intro b hb
        simp only [Bool.not_eq_eq_eq_not, Bool.not_true, beq_eq_false_iff_ne,
          ne_eq]
        rintro rfl
        exact hhead (hax ▸ hb)
      have hxa : (!(x == a)) = false := by simp [hax]
      simp only [List.filter_cons, hxa, Bool.false_eq_true, if_false, hall,
        List.length_cons]
      omega
    · have hxa : x ≠ a := by
        rintro rfl
        exact hhead hmem
      have hlen := ih (List.nodup_cons.mp hnd).2 hmem
      have hpos : 0 < xs.length := List.length_pos.mpr (List.ne_nil_of_mem hmem)
      have hne : (!(x == a)) = true := by simp [hxa]
      simp only [List.filter_cons, hne, if_true, List.length_cons, hlen]
      omega

lemma sheet_eq_sheetRowsFor (results : List BenchRecord) (bid : String)
    (k : PipelineKind) :
    (extract_frame_data_by_pipeline results bid).sheet k
      = sheetRowsFor results bid k := by
  cases k <;> rfl

lemma sheetRowsFor_singleton (r : BenchRecord) (bid : String)
    (k : PipelineKind) :
    sheetRowsFor [r] bid k = frameContrib r bid k := by
  simp [sheetRowsFor]

/-- C1 counterexample: the claim promises that a recognized-pipeline record
with N samples always yields N−1 rows, but the filter keys on the
`frame_num` field, not the sample position.  `c1CexRecord` has a recognized
pipeline and N = 3 samples whose `frame_num` all default to 0; no sample's
`frame_num` equals ⌊3/2⌋ = 1, so all 3 rows are emitted, not 2. -/
theorem c1_counterexample :
    pipelineTarget c1CexRecord.pipelineD = some PipelineKind.hardware_rt ∧
    c1CexRecord.frames.length = 3 ∧
    ((extract_frame_data_by_pipeline [c1CexRecord] "b").sheet
        PipelineKind.hardware_rt).length = 3 ∧
    ((extract_frame_data_by_pipeline [c1CexRecord] "b").sheet
        PipelineKind.hardware_rt).length ≠ c1CexRecord.frames.length - 1 := by
  refine ⟨by decide, rfl, by decide, by decide⟩

/-- C1 (amended): for a record whose pipeline is recognized and whose frames
carry `frame_num` equal to their 0-based position (the harness numbering the
source comments document), per-pipeline sample extraction emits exactly N−1
rows and the omitted frame index is exactly ⌊N/2⌋. -/
theorem c1_midpoint_exclusion (r : BenchRecord) (bid : String)
    (k : PipelineKind)
    (hk : pipelineTarget r.pipelineD = some k)
    (hnum : r.frames.map frameNumD = List.range r.frames.length) :
    ((extract_frame_data_by_pipeline [r] bid).sheet k).length
        = r.frames.length - 1 ∧
    ((extract_frame_data_by_pipeline [r] bid).sheet k).map FrameRow.frame
        = (List.range r.frames.length).filter
            (fun i => !(i == r.frames.length / 2)) := by
  have hrows : (extract_frame_data_by_pipeline [r] bid).sheet k
      = (r.frames.filter fun f => !(frameNumD f == r.frames.length / 2)).map
          (frameRowOf bid r.testIdD) := by
    rw [sheet_eq_sheetRowsFor, sheetRowsFor_singleton, frameContrib, if_pos hk]
  have hframe : ∀ f, (frameRowOf bid r.testIdD f).frame = frameNumD f :=
    fun _ => rfl
  have hmap : ((extract_frame_data_by_pipeline [r] bid).sheet k).map
      FrameRow.frame
      = (List.range r.frames.length).filter
          (fun i => !(i == r.frames.length / 2)) := by
    rw [hrows, List.map_map]
    have : (FrameRow.frame ∘ frameRowOf bid r.testIdD) = frameNumD := by
      funext f
      exact hframe f
    rw [this, map_filter_through frameNumD
      (fun i => !(i == r.frames.length / 2)) r.frames, hnum]
  refine ⟨?_, hmap⟩
  have hlen : ((extract_frame_data_by_pipeline [r] bid).sheet k).length
      = ((List.range r.frames.length).filter
          (fun i => !(i == r.frames.length / 2))).length := by
    rw [← hmap, List.length_map]
  rw [hlen]
  cases hN : r.frames.length with
  | zero => simp
  | succ m =>
    have := length_filter_bne_of_nodup (List.nodup_range (n := m + 1))
      (List.mem_range.mpr (Nat.div_lt_self (Nat.succ_pos m)
        (by norm_num : (1 : ℕ) < 2)))
    simpa using this

/-- C1 witness: the amended theorem applied to a concrete 4-sample record
(4 samples → 3 rows, frame 2 missing). -/
theorem c1_witness :
    ((extract_frame_data_by_pipeline [c1OkRecord] "b").sheet
        PipelineKind.hardware_rt).length = c1OkRecord.frames.length - 1 ∧
    ((extract_frame_data_by_pipeline [c1OkRecord] "b").sheet
        PipelineKind.hardware_rt).map FrameRow.frame
      = (List.range c1OkRecord.frames.length).filter
          (fun i => !(i == c1OkRecord.frames.length / 2)) :=
  c1_midpoint_exclusion c1OkRecord "b" PipelineKind.hardware_rt
    (by decide) (by decide)

/-- C2 counterexample: the claim promises that an unknown/absent
`scene_type` suppresses FrameSample rows as well, but
`extract_frame_data_by_pipeline` never inspects the scene: `c2CexRecord`
has an unknown scene yet contributes a frame row to the `hardware_rt`
relation (while, as claimed, contributing no summary row). -/
theorem c2_counterexample :
    c2CexRecord.sceneD = "unknown" ∧
    extract_summary_data [c2CexRecord] "b" = [] ∧
    ((extract_frame_data_by_pipeline [c2CexRecord] "b").sheet
        PipelineKind.hardware_rt).length = 1 := by
  refine ⟨rfl, by decide, by decide⟩

/-- C2 (amended): a record whose pipeline resolves to `"unknown"` (the
field absent or literally `"unknown"`) produces neither a TestSummary row
nor a FrameSample row in any pipeline relation; a record whose pipeline is
unrecognized produces no FrameSample row in any pipeline relation (summary
extraction drops only the literal `"unknown"`); and a record whose
`scene_type` resolves to `"unknown"` produces no TestSummary row — but
FrameSample rows are still emitted for it when its pipeline is
recognized. -/
theorem c2_unknown_filtering (r : BenchRecord) (bid : String) :
    (r.pipelineD = "unknown" →
      extract_summary_data [r] bid = [] ∧
      ∀ k, (extract_frame_data_by_pipeline [r] bid).sheet k = []) ∧
    (pipelineTarget r.pipelineD = none →
      ∀ k, (extract_frame_data_by_pipeline [r] bid).sheet k = []) ∧
    (r.sceneD = "unknown" → extract_summary_data [r] bid = []) := by
  have hframes : pipelineTarget r.pipelineD = none →
      ∀ k, (extract_frame_data_by_pipeline [r] bid).sheet k = [] := by
    intro hn k
    rw [sheet_eq_sheetRowsFor, sheetRowsFor_singleton, frameContrib, hn]
    simp
  have hsum : keepSummary r = false → extract_summary_data [r] bid = [] := by
    intro hks
    simp [extract_summary_data, List.filter, hks, sortBy]
  refine ⟨fun hp => ⟨hsum ?_, hframes ?_⟩, hframes, fun hs => hsum ?_⟩
  · simp [keepSummary, hp]
  · rw [hp]
    decide
  · simp [keepSummary, hs]

/-- C2 witness: the amended theorem applied to a concrete absent-pipeline
record (no rows anywhere) and to the concrete unknown-scene record (no
summary row). -/
theorem c2_witness :
    (extract_summary_data [c2UnknownRecord] "b" = [] ∧
      ∀ k, (extract_frame_data_by_pipeline [c2UnknownRecord] "b").sheet k = []) ∧
    extract_summary_data [c2CexRecord] "b" = [] :=
  ⟨(c2_unknown_filtering c2UnknownRecord "b").1 rfl,
   (c2_unknown_filtering c2CexRecord "b").2.2 rfl⟩

/-! Lemmas about the merge step shared by the store-manager claims. -/

lemma crossStep_benchmarks (w : Workbook) :
    (crossStep w).benchmarks = w.benchmarks := by
  cases h : extract_cross_machine_data w <;> simp [crossStep, h]

lemma crossStep_summary (w : Workbook) :
    (crossStep w).summary = w.summary := by
  cases h : extract_cross_machine_data w <;> simp [crossStep, h]

lemma crossStep_hwrt (w : Workbook) :
    (crossStep w).hwrtFrames = w.hwrtFrames := by
  cases h : extract_cross_machine_data w <;> simp [crossStep, h]

lemma crossStep_compute (w : Workbook) :
    (crossStep w).computeFrames = w.computeFrames := by
  cases h : extract_cross_machine_data w <;> simp [crossStep, h]

lemma crossStep_fragment (w : Workbook) :
    (crossStep w).fragmentFrames = w.fragmentFrames := by
  cases h : extract_cross_machine_data w <;> simp [crossStep, h]

lemma append_to_sheet_cons (c : Row) (cs rows : List Row) :
    append_to_sheet (c :: cs) rows = (c :: cs) ++ rows := by
  cases rows with
  | nil => simp [append_to_sheet]
  | cons r rs => rfl

lemma upsertSheet_cons (c : Row) (cs rows : List Row) (hs : List String) :
    upsertSheet (some (c :: cs)) hs rows = (c :: cs) ++ rows :=
  append_to_sheet_cons c cs rows

lemma upsertFrameSheet_cons (c : Row) (cs rows : List Row) :
    upsertFrameSheet (some (c :: cs)) rows = some ((c :: cs) ++ rows) := by
  cases rows with
  | nil => simp [upsertFrameSheet]
  | cons r rs => rfl

lemma toSheet_cons (hs : List String) (r : Row) (rs : List Row) :
    toSheet hs (r :: rs) = headerRow hs :: r :: rs := rfl

/-- C3 (confirmed): merging into an existing store appends the batch's rows
of every base relation after the last existing row, leaving the header and
every prior row in place; and merging run A into a fresh store and then run
B yields a Summary relation holding the header, then all of A's rows, then
all of B's rows. -/
theorem c3_append_only (wb : Workbook) (results : List BenchRecord)
    (bid mach now : String) :
    ((∀ c cs, wb.benchmarks = some (c :: cs) →
      (create_or_update_workbook (some wb) results bid mach now).benchmarks
        = some ((c :: cs) ++ benchCells results bid mach now)) ∧
    (∀ c cs, wb.summary = some (c :: cs) →
      (create_or_update_workbook (some wb) results bid mach now).summary
        = some ((c :: cs) ++ summaryCells results bid)) ∧
    (∀ c cs, wb.hwrtFrames = some (c :: cs) →
      (create_or_update_workbook (some wb) results bid mach now).hwrtFrames
        = some ((c :: cs) ++ frameCells results bid .hardware_rt)) ∧
    (∀ c cs, wb.computeFrames = some (c :: cs) →
      (create_or_update_workbook (some wb) results bid mach now).computeFrames
        = some ((c :: cs) ++ frameCells results bid .compute)) ∧
    (∀ c cs, wb.fragmentFrames = some (c :: cs) →
      (create_or_update_workbook (some wb) results bid mach now).fragmentFrames
        = some ((c :: cs) ++ frameCells results bid .fragment))) ∧
    (∀ (A B : List BenchRecord) (bidA bidB machA machB nowA nowB : String),
      summaryCells A bidA ≠ [] →
      (create_or_update_workbook
          (some (create_or_update_workbook none A bidA machA nowA))
          B bidB machB nowB).summary
        = some (headerRow summaryHeaders
            :: (summaryCells A bidA ++ summaryCells B bidB))) := by
  constructor
  · refine ⟨fun c cs h => ?_, fun c cs h => ?_, fun c cs h => ?_,
      fun c cs h => ?_, fun c cs h => ?_⟩
    · rw [create_or_update_workbook, crossStep_benchmarks]
      show some (upsertSheet wb.benchmarks benchHeaders _) = _
      rw [h, upsertSheet_cons]
    · rw [create_or_update_workbook, crossStep_summary]
      show some (upsertSheet wb.summary summaryHeaders _) = _
      rw [h, upsertSheet_cons]
    · rw [create_or_update_workbook, crossStep_hwrt]
      show upsertFrameSheet wb.hwrtFrames _ = _
      rw [h, upsertFrameSheet_cons]
    · rw [create_or_update_workbook, crossStep_compute]
      show upsertFrameSheet wb.computeFrames _ = _
      rw [h, upsertFrameSheet_cons]
    · rw [create_or_update_workbook, crossStep_fragment]
      show upsertFrameSheet wb.fragmentFrames _ = _
      rw [h, upsertFrameSheet_cons]
  · intro A B bidA bidB machA machB nowA nowB hA
    cases hAc : summaryCells A bidA with
    | nil => exact absurd hAc hA
    | cons a as =>
      have h1 : (create_or_update_workbook none A bidA machA nowA).summary
          = some (headerRow summaryHeaders :: a :: as) := by
        rw [create_or_update_workbook, crossStep_summary]
        show some (upsertSheet none summaryHeaders (summaryCells A bidA)) = _
        rw [hAc]
        rfl
      rw [create_or_update_workbook, crossStep_summary]
      show some (upsertSheet
        (create_or_update_workbook none A bidA machA nowA).summary
        summaryHeaders (summaryCells B bidB)) = _
      rw [h1, upsertSheet_cons]
      simp [hAc]

/-- C3 witness: the append-only theorem applied to a concrete store and a
concrete batch, and the A-then-B scenario at concrete runs. -/
theorem c3_witness :
    (create_or_update_workbook (some c3Store) [c1OkRecord] "b1" "m" "n").summary
      = some ((headerRow summaryHeaders :: [[Cell.str "b0", Cell.str "t0"]])
          ++ summaryCells [c1OkRecord] "b1") ∧
    (create_or_update_workbook
        (some (create_or_update_workbook none [c1OkRecord] "bA" "mA" "nA"))
        [c1OkRecord] "bB" "mB" "nB").summary
      = some (headerRow summaryHeaders
          :: (summaryCells [c1OkRecord] "bA" ++ summaryCells [c1OkRecord] "bB")) :=
  ⟨(c3_append_only c3Store [c1OkRecord] "b1" "m" "n").1.2.1
      (headerRow summaryHeaders) [[Cell.str "b0", Cell.str "t0"]] rfl,
   (c3_append_only c3Store [c1OkRecord] "b1" "m" "n").2
      [c1OkRecord] [c1OkRecord] "bA" "bB" "mA" "mB" "nA" "nB" (by decide)⟩

/-- C4 counterexample: the claim promises that every base relation absent
from the store is created (with its header and the batch's rows) by a merge,
but a frame relation to which the batch contributes zero rows is skipped
outright: merging a compute-only batch into a store without `HW_RT_Frames`
leaves `HW_RT_Frames` absent rather than creating it with its header. -/
theorem c4_counterexample :
    c4Store.hwrtFrames = none ∧
    (create_or_update_workbook (some c4Store) [c4ComputeRecord] "b" "m" "n").hwrtFrames
      = none := by
  refine ⟨rfl, by decide⟩

/-- C4 (amended): a merge creates an absent base relation with exactly the
documented header row followed by the batch's rows whenever the batch
contributes at least one row to it; an absent frame relation receiving zero
rows stays absent; and a merge contributing zero new rows to an existing
relation leaves it exactly unchanged. -/
theorem c4_create_and_idempotent (wb : Workbook) (results : List BenchRecord)
    (bid mach now : String) :
    ((wb.benchmarks = none → ∀ r rs, benchCells results bid mach now = r :: rs →
      (create_or_update_workbook (some wb) results bid mach now).benchmarks
        = some (headerRow benchHeaders :: r :: rs)) ∧
    (wb.summary = none → ∀ r rs, summaryCells results bid = r :: rs →
      (create_or_update_workbook (some wb) results bid mach now).summary
        = some (headerRow summaryHeaders :: r :: rs)) ∧
    (wb.hwrtFrames = none → ∀ r rs,
      frameCells results bid .hardware_rt = r :: rs →
      (create_or_update_workbook (some wb) results bid mach now).hwrtFrames
        = some (headerRow frameHeaders :: r :: rs)) ∧
    (wb.computeFrames = none → ∀ r rs,
      frameCells results bid .compute = r :: rs →
      (create_or_update_workbook (some wb) results bid mach now).computeFrames
        = some (headerRow frameHeaders :: r :: rs)) ∧
    (wb.fragmentFrames = none → ∀ r rs,
      frameCells results bid .fragment = r :: rs →
      (create_or_update_workbook (some wb) results bid mach now).fragmentFrames
        = some (headerRow frameHeaders :: r :: rs))) ∧
    ((wb.hwrtFrames = none → frameCells results bid .hardware_rt = [] →
      (create_or_update_workbook (some wb) results bid mach now).hwrtFrames
        = none) ∧
    (wb.computeFrames = none → frameCells results bid .compute = [] →
      (create_or_update_workbook (some wb) results bid mach now).computeFrames
        = none) ∧
    (wb.fragmentFrames = none → frameCells results bid .fragment = [] →
      (create_or_update_workbook (some wb) results bid mach now).fragmentFrames
        = none)) ∧
    ((∀ s, wb.benchmarks = some s → benchCells results bid mach now = [] →
      (create_or_update_workbook (some wb) results bid mach now).benchmarks
        = some s) ∧
    (∀ s, wb.summary = some s → summaryCells results bid = [] →
      (create_or_update_workbook (some wb) results bid mach now).summary
        = some s) ∧
    (∀ s, wb.hwrtFrames = some s → frameCells results bid .hardware_rt = [] →
      (create_or_update_workbook (some wb) results bid mach now).hwrtFrames
        = some s) ∧
    (∀ s, wb.computeFrames = some s → frameCells results bid .compute = [] →
      (create_or_update_workbook (some wb) results bid mach now).computeFrames
        = some s) ∧
    (∀ s, wb.fragmentFrames = some s → frameCells results bid .fragment = [] →
      (create_or_update_workbook (some wb) results bid mach now).fragmentFrames
        = some s)) := by
  refine ⟨⟨fun h r rs hc => ?_, fun h r rs hc => ?_, fun h r rs hc => ?_,
      fun h r rs hc => ?_, fun h r rs hc => ?_⟩,
    ⟨fun h hc => ?_, fun h hc => ?_, fun h hc => ?_⟩,
    ⟨fun s h hc => ?_, fun s h hc => ?_, fun s h hc => ?_, fun s h hc => ?_,
      fun s h hc => ?_⟩⟩
  · rw [create_or_update_workbook, crossStep_benchmarks]
    show some (upsertSheet wb.benchmarks benchHeaders _) = _
    rw [h, hc]
    rfl
  · rw [create_or_update_workbook, crossStep_summary]
    show some (upsertSheet wb.summary summaryHeaders _) = _
    rw [h, hc]
    rfl
  · rw [create_or_update_workbook, crossStep_hwrt]
    show upsertFrameSheet wb.hwrtFrames _ = _
    rw [h, hc]
    rfl
  · rw [create_or_update_workbook, crossStep_compute]
    show upsertFrameSheet wb.computeFrames _ = _
    rw [h, hc]
    rfl
  · rw [create_or_update_workbook, crossStep_fragment]
    show upsertFrameSheet wb.fragmentFrames _ = _
    rw [h, hc]
    rfl
  · rw [create_or_update_workbook, crossStep_hwrt]
    show upsertFrameSheet wb.hwrtFrames _ = _
    rw [h, hc]
    rfl
  · rw [create_or_update_workbook, crossStep_compute]
    show upsertFrameSheet wb.computeFrames _ = _
    rw [h, hc]
    rfl
  · rw [create_or_update_workbook, crossStep_fragment]
    show upsertFrameSheet wb.fragmentFrames _ = _
    rw [h, hc]
    rfl
  · rw [create_or_update_workbook, crossStep_benchmarks]
    show some (upsertSheet wb.benchmarks benchHeaders _) = _
    rw [h, hc]
    rfl
  · rw [create_or_update_workbook, crossStep_summary]
    show some (upsertSheet wb.summary summaryHeaders _) = _
    rw [h, hc]
    rfl
  · rw [create_or_update_workbook, crossStep_hwrt]
    show upsertFrameSheet wb.hwrtFrames _ = _
    rw [h, hc]
    rfl
  · rw [create_or_update_workbook, crossStep_compute]
    show upsertFrameSheet wb.computeFrames _ = _
    rw [h, hc]
    rfl
  · rw [create_or_update_workbook, crossStep_fragment]
    show upsertFrameSheet wb.fragmentFrames _ = _
    rw [h, hc]
    rfl

/-- C4 witness: creation with the documented header at a concrete batch,
absence preserved at a concrete zero-row frame relation, and an existing
relation untouched by a batch contributing zero summary rows. -/
theorem c4_witness :
    (create_or_update_workbook (some emptyWorkbook) [c1OkRecord] "b" "m" "n").summary
      = some (headerRow summaryHeaders :: (summaryRowOf c1OkRecord "b").cells :: []) ∧
    (create_or_update_workbook (some c4Store) [c4ComputeRecord] "bz" "m" "n").hwrtFrames
      = none ∧
    (create_or_update_workbook (some c4Store) [c2UnknownRecord] "bu" "m" "n").summary
      = some [headerRow summaryHeaders, [Cell.str "b0", Cell.str "t0"]] :=
  ⟨(c4_create_and_idempotent emptyWorkbook [c1OkRecord] "b" "m" "n").1.2.1 rfl
      (summaryRowOf c1OkRecord "b").cells [] (by decide),
   (c4_create_and_idempotent c4Store [c4ComputeRecord] "bz" "m" "n").2.1.1 rfl
      (by decide),
   (c4_create_and_idempotent c4Store [c2UnknownRecord] "bu" "m" "n").2.2.2.1
      [headerRow summaryHeaders, [Cell.str "b0", Cell.str "t0"]] rfl (by decide)⟩

lemma mergeBase_cross (store : Option Workbook) (results : List BenchRecord)
    (bid mach now : String) :
    (mergeBase store results bid mach now).crossMachine = none := rfl

/-- C5 (confirmed): on every merge the `Cross_Machine` relation of the
result is exactly the derivation recomputed from the post-merge base sheets
(omitted when the derivation yields no rows), the store's prior
`Cross_Machine` content has no influence whatsoever on the merge result,
and the derivation reads only the `Benchmarks` and `Summary` sheets — equal
base contents yield equal derived output. -/
theorem c5_cross_machine_rebuild (wb : Workbook) (results : List BenchRecord)
    (bid mach now : String) :
    ((create_or_update_workbook (some wb) results bid mach now).crossMachine
      = (if extract_cross_machine_data
            (mergeBase (some wb) results bid mach now) = []
         then none
         else some (toSheet crossHeaders
            ((extract_cross_machine_data
              (mergeBase (some wb) results bid mach now)).map CrossRow.cells)))) ∧
    (∀ c, create_or_update_workbook (some { wb with crossMachine := c })
        results bid mach now
      = create_or_update_workbook (some wb) results bid mach now) ∧
    (∀ w1 w2 : Workbook, w1.benchmarks = w2.benchmarks →
      w1.summary = w2.summary →
      extract_cross_machine_data w1 = extract_cross_machine_data w2) := by
  refine ⟨?_, fun c => rfl, fun w1 w2 h1 h2 => ?_⟩
  · rw [create_or_update_workbook]
    cases h : extract_cross_machine_data
        (mergeBase (some wb) results bid mach now) with
    | nil =>
      rw [if_pos rfl]
      show (crossStep _).crossMachine = none
      rw [crossStep, h, mergeBase_cross]
    | cons r rs =>
      rw [if_neg (by simp)]
      show (crossStep _).crossMachine = _
      rw [crossStep, h]
  · show extractCrossAux w1.benchmarks w1.summary
      = extractCrossAux w2.benchmarks w2.summary
    rw [h1, h2]

/-- C5 witness: the derivation at two concrete stores with equal
`Benchmarks`/`Summary` sheets but different frame sheets coincides. -/
theorem c5_witness :
    extract_cross_machine_data c3Store = extract_cross_machine_data c4Store :=
  (c5_cross_machine_rebuild c4Store [] "b" "m" "n").2.2 c3Store c4Store rfl rfl

lemma minStr_le_left (a b : String) : minStr a b ≤ a := by
  unfold minStr
  split
  · exact le_of_lt (by assumption)
  · exact le_refl a

lemma minStr_le_right (a b : String) : minStr a b ≤ b := by
  unfold minStr
  split
  · exact le_refl b
  · exact not_lt.mp (by assumption)

lemma minStr_cases (a b : String) : minStr a b = a ∨ minStr a b = b := by
  unfold minStr
  split
  · exact Or.inr rfl
  · exact Or.inl rfl

lemma foldl_minStr_spec (ts : List String) (t : String) :
    ts.foldl minStr t ∈ t :: ts ∧ ∀ s ∈ t :: ts, ts.foldl minStr t ≤ s := by
  induction ts generalizing t with
  | nil =>
    refine ⟨List.mem_singleton.mpr rfl, ?_⟩
    intro s hs
    rw [List.mem_singleton.mp hs]
    exact le_refl t
  | cons b bs ih =>
    obtain ⟨hmem, hle⟩ := ih (minStr t b)
    rw [List.foldl_cons]
    constructor
    · rcases List.mem_cons.mp hmem with heq | hin
      · rcases minStr_cases t b with h1 | h1
        · rw [heq, h1]
          exact List.mem_cons_self _ _
        · rw [heq, h1]
          exact List.mem_cons_of_mem _ (List.mem_cons_self _ _)
      · exact List.mem_cons_of_mem _ (List.mem_cons_of_mem _ hin)
    · intro s hs
      rcases List.mem_cons.mp hs with rfl | hs2
      · exact le_trans (hle _ (List.mem_cons_self _ _)) (minStr_le_left s b)
      · rcases List.mem_cons.mp hs2 with rfl | hs3
        · exact le_trans (hle _ (List.mem_cons_self _ _)) (minStr_le_right t s)
        · exact hle s (List.mem_cons_of_mem _ hs3)

/-- C6 (confirmed): run-metadata extraction returns no row for an empty
record sequence; for a non-empty sequence it returns exactly one row whose
device fields come from the first record, whose run date is the minimum of
the present timestamps (`now` when none are present), and whose
`total_tests` counts every loaded record. -/
theorem c6_run_metadata (results : List BenchRecord) (bid mach now : String) :
    (results = [] → extract_benchmark_metadata results bid mach now = []) ∧
    (∀ r rs, results = r :: rs →
      ∃ row, extract_benchmark_metadata results bid mach now = [row] ∧
        row.benchmark_id = bid ∧
        row.machine_name = mach ∧
        row.gpu_name = r.device.gpu.getD "unknown" ∧
        row.gpu_driver = r.device.driver.getD "unknown" ∧
        row.vram_gb = r.device.vram_gb.getD 0 ∧
        row.total_tests = results.length ∧
        row.notes = "" ∧
        (presentTimestamps results = [] → row.run_date = now) ∧
        (presentTimestamps results ≠ [] →
          row.run_date ∈ presentTimestamps results) ∧
        (∀ t ∈ presentTimestamps results, row.run_date ≤ t)) := by
  constructor
  · rintro rfl
    rfl
  · rintro r rs rfl
    cases hp : presentTimestamps (r :: rs) with
    | nil =>
      refine ⟨⟨bid, mach, r.device.gpu.getD "unknown",
          r.device.driver.getD "unknown", r.device.vram_gb.getD 0, now,
          (r :: rs).length, ""⟩,
        ?_, rfl, rfl, rfl, rfl, rfl, rfl, rfl, fun _ => rfl,
        fun habs => absurd rfl habs, ?_⟩
      · unfold extract_benchmark_metadata
        rw [hp]
      · intro t ht
        exact absurd ht (List.not_mem_nil t)
    | cons t0 ts0 =>
      obtain ⟨hmem, hle⟩ := foldl_minStr_spec ts0 t0
      refine ⟨⟨bid, mach, r.device.gpu.getD "unknown",
          r.device.driver.getD "unknown", r.device.vram_gb.getD 0,
          ts0.foldl minStr t0, (r :: rs).length, ""⟩,
        ?_, rfl, rfl, rfl, rfl, rfl, rfl, rfl,
        fun habs => absurd habs (List.cons_ne_nil t0 ts0), ?_, ?_⟩
      · unfold extract_benchmark_metadata
        rw [hp]
      · intro _
        exact hmem
      · intro t ht
        exact hle t ht

/-- C6 witness: the metadata theorem applied to a concrete two-record run. -/
theorem c6_witness :
    ∃ row,
      extract_benchmark_metadata [c1OkRecord, c4ComputeRecord] "b" "m" "n"
        = [row] ∧
      row.benchmark_id = "b" ∧
      row.machine_name = "m" ∧
      row.gpu_name = c1OkRecord.device.gpu.getD "unknown" ∧
      row.gpu_driver = c1OkRecord.device.driver.getD "unknown" ∧
      row.vram_gb = c1OkRecord.device.vram_gb.getD 0 ∧
      row.total_tests = [c1OkRecord, c4ComputeRecord].length ∧
      row.notes = "" ∧
      (presentTimestamps [c1OkRecord, c4ComputeRecord] = [] →
        row.run_date = "n") ∧
      (presentTimestamps [c1OkRecord, c4ComputeRecord] ≠ [] →
        row.run_date ∈ presentTimestamps [c1OkRecord, c4ComputeRecord]) ∧
      (∀ t ∈ presentTimestamps [c1OkRecord, c4ComputeRecord],
        row.run_date ≤ t) :=
  (c6_run_metadata [c1OkRecord, c4ComputeRecord] "b" "m" "n").2
    c1OkRecord [c4ComputeRecord] rfl

/-- C7 counterexample: the claim promises that the explicit command-line
override has the highest precedence on every aggregation invocation, but
`process_all_benchmarks` calls `get_machine_name()` directly: with an
explicit override and an environment variable both set, a `--process-all`
invocation records the environment value, not the override. -/
theorem c7_counterexample :
    resolveMachineNameProcessAll (some "cli-name") (some "env-name") none "host"
      = "env-name" ∧
    resolveMachineNameProcessAll (some "cli-name") (some "env-name") none "host"
      ≠ "cli-name" := by
  refine ⟨rfl, by decide⟩

/-- C7 (amended): in the default single-directory invocation a non-empty
explicit override wins, and otherwise resolution proceeds environment
variable, then non-empty config-file field, then hostname; in
`--process-all` invocations the explicit override is ignored and resolution
starts at the environment variable. -/
theorem c7_machine_name_precedence (override env cfgMachine : Option String)
    (hostname : String) :
    (∀ o, override = some o → o ≠ "" →
      resolveMachineNameMain override env cfgMachine hostname = o) ∧
    (override = none →
      resolveMachineNameMain override env cfgMachine hostname
        = get_machine_name env cfgMachine hostname) ∧
    (resolveMachineNameProcessAll override env cfgMachine hostname
      = get_machine_name env cfgMachine hostname) ∧
    (∀ e, env = some e → get_machine_name env cfgMachine hostname = e) ∧
    (∀ c, env = none → cfgMachine = some c → c ≠ "" →
      get_machine_name env cfgMachine hostname = c) ∧
    (env = none → cfgMachine = none →
      get_machine_name env cfgMachine hostname = hostname) := by
  refine ⟨?_, ?_, rfl, ?_, ?_, ?_⟩
  · rintro o rfl ho
    simp [resolveMachineNameMain, ho]
  · rintro rfl
    rfl
  · rintro e rfl
    rfl
  · rintro c rfl rfl hc
    simp [get_machine_name, hc]
  · rintro rfl rfl
    rfl

/-- C7 witness: the amended precedence applied at concrete values — the
override wins in the single-directory path, the config field wins when the
environment variable is unset, and the hostname is the final fallback. -/
theorem c7_witness :
    resolveMachineNameMain (some "cli") (some "env") (some "cfg") "host"
      = "cli" ∧
    get_machine_name none (some "cfg") "host" = "cfg" ∧
    get_machine_name none none "host" = "host" :=
  ⟨(c7_machine_name_precedence (some "cli") (some "env") (some "cfg")
      "host").1 "cli" rfl (by decide),
   (c7_machine_name_precedence none none (some "cfg") "host").2.2.2.2.1
      "cfg" rfl rfl (by decide),
   (c7_machine_name_precedence none none none "host").2.2.2.2.2 rfl rfl⟩

/-- C8 (confirmed): pack fails with its not-found error exactly when the
source directory does not exist, and unpack fails with its not-found error
exactly when the archive does not exist; in particular the not-found branch
is never taken for an existing source path. -/
theorem c8_archiver_not_found (dirName : String)
    (src : Option (List (List String × List Nat)))
    (zip : Option (List ZipEntry)) (outputDir : List String) :
    (pack_benchmark dirName src = Except.error ArchiveError.notFound
      ↔ src = none) ∧
    (unpack_benchmark zip outputDir = Except.error ArchiveError.notFound
      ↔ zip = none) := by
  constructor
  · cases src <;> simp [pack_benchmark]
  · cases zip <;> simp [unpack_benchmark]

lemma hundred_mul_round2 (q : ℚ) :
    100 * round2 q = (roundHalfEven (q * 100) : ℚ) := by
  unfold round2
  rw [mul_comm, div_mul_cancel₀]
  norm_num

lemma round2_den (q : ℚ) : (100 * round2 q).den = 1 := by
  rw [hundred_mul_round2]
  exact Rat.den_intCast _

/-- C9 (confirmed): every numeric aggregate of every derived `Cross_Machine`
row — mean, min and max FPS and mean frame time — is an exact multiple of
1/100, i.e. carries exactly two decimal places, because `round(2)` is
applied to the aggregate frame before persistence. -/
theorem c9_cross_rounding (wb : Workbook) (row : CrossRow)
    (hrow : row ∈ extract_cross_machine_data wb) :
    (100 * row.avg_fps).den = 1 ∧
    (100 * row.min_fps).den = 1 ∧
    (100 * row.max_fps).den = 1 ∧
    (100 * row.avg_frame_time_ms).den = 1 := by
  unfold extract_cross_machine_data extractCrossAux at hrow
  cases hctx : crossCtx wb.benchmarks wb.summary with
  | none =>
    rw [hctx] at hrow
    cases hrow
  | some ctx =>
    rw [hctx] at hrow
    simp only [crossRowsOf] at hrow
    obtain ⟨k, hk, rfl⟩ := List.mem_map.mp hrow
    exact ⟨round2_den _, round2_den _, round2_den _, round2_den _⟩

/-- C9 witness: the rounding theorem applied to the concrete derived row of
`c9Store`. -/
theorem c9_witness :
    (100 * (⟨Cell.str "GPU-A", Cell.str "hardware_rt", 100, 100, 100, 10, 1⟩
        : CrossRow).avg_fps).den = 1 ∧
    (100 * (⟨Cell.str "GPU-A", Cell.str "hardware_rt", 100, 100, 100, 10, 1⟩
        : CrossRow).min_fps).den = 1 ∧
    (100 * (⟨Cell.str "GPU-A", Cell.str "hardware_rt", 100, 100, 100, 10, 1⟩
        : CrossRow).max_fps).den = 1 ∧
    (100 * (⟨Cell.str "GPU-A", Cell.str "hardware_rt", 100, 100, 100, 10, 1⟩
        : CrossRow).avg_frame_time_ms).den = 1 :=
  c9_cross_rounding c9Store
    ⟨Cell.str "GPU-A", Cell.str "hardware_rt", 100, 100, 100, 10, 1⟩
    (by with_unfolding_all decide)

/-- C10 (confirmed): the purge deletes only the `*.json` direct children of
the run folder and the `debug_images` subdirectory; every other file and
every other subdirectory survives unchanged, nothing new appears, a failed
deletion is recorded as a warning, and one item's failure never prevents
another deletable item's removal. -/
theorem c10_cleanup_scope (d : RunFolder) (canDeleteFile : String → Bool)
    (canDeleteDebug : Bool) :
    (∀ n ∈ d.files, matchesJsonGlob n = false →
      n ∈ (cleanup_transient_files d canDeleteFile canDeleteDebug).1.files) ∧
    (∀ s ∈ d.subdirs, s.1 ≠ "debug_images" →
      s ∈ (cleanup_transient_files d canDeleteFile canDeleteDebug).1.subdirs) ∧
    (∀ n ∈ d.files, matchesJsonGlob n = true → canDeleteFile n = true →
      n ∉ (cleanup_transient_files d canDeleteFile canDeleteDebug).1.files) ∧
    (∀ n, n ∈ (cleanup_transient_files d canDeleteFile canDeleteDebug).1.files →
      n ∈ d.files) ∧
    (∀ s, s ∈ (cleanup_transient_files d canDeleteFile canDeleteDebug).1.subdirs →
      s ∈ d.subdirs) ∧
    (∀ n ∈ d.files, matchesJsonGlob n = true → canDeleteFile n = false →
      n ∈ (cleanup_transient_files d canDeleteFile canDeleteDebug).2) := by
  refine ⟨fun n hn hj => ?_, fun s hs hd => ?_, fun n hn hj hdel hmem => ?_,
    fun n hn => ?_, fun s hs => ?_, fun n hn hj hdel => ?_⟩
  · exact List.mem_filter.mpr ⟨hn, by simp [hj]⟩
  · show s ∈ (if _ then _ else _)
    split
    · exact List.mem_filter.mpr ⟨hs, by simp [hd]⟩
    · exact hs
  · have := (List.mem_filter.mp hmem).2
    simp [hj, hdel] at this
  · exact List.mem_filter.mp hn |>.1
  · have hs2 : s ∈ (if (d.subdirs.any fun s => s.1 == "debug_images")
        && canDeleteDebug then
        d.subdirs.filter fun s => !(s.1 == "debug_images")
      else d.subdirs) := hs
    split at hs2
    · exact (List.mem_filter.mp hs2).1
    · exact hs2
  · apply List.mem_append_left
    exact List.mem_filter.mpr ⟨hn, by simp [hj, hdel]⟩

/-- C10 witness: the cleanup theorem applied to the concrete folder — the
non-JSON file and the unrelated subdirectory survive, the deletable JSON is
removed despite another item's failure, and the failed item is warned
about. -/
theorem c10_witness :
    "keep.txt" ∈ (cleanup_transient_files c10Folder c10Oracle true).1.files ∧
    ("other", ["y.dat"])
      ∈ (cleanup_transient_files c10Folder c10Oracle true).1.subdirs ∧
    "a.json" ∉ (cleanup_transient_files c10Folder c10Oracle true).1.files ∧
    "b.json" ∈ (cleanup_transient_files c10Folder c10Oracle true).2 :=
  ⟨(c10_cleanup_scope c10Folder c10Oracle true).1 "keep.txt"
      (by with_unfolding_all decide) (by with_unfolding_all decide),
   (c10_cleanup_scope c10Folder c10Oracle true).2.1 ("other", ["y.dat"])
      (by with_unfolding_all decide) (by with_unfolding_all decide),
   (c10_cleanup_scope c10Folder c10Oracle true).2.2.1 "a.json"
      (by with_unfolding_all decide) (by with_unfolding_all decide) (by with_unfolding_all decide),
   (c10_cleanup_scope c10Folder c10Oracle true).2.2.2.2.2 "b.json"
      (by with_unfolding_all decide) (by with_unfolding_all decide) (by with_unfolding_all decide)⟩
